import Mathlib

/-
  Verification of the WebSocket transport core of `intent-ethers-provider`
  (src/src/internal/transport/HttpSubprovider.ts, class `WebSocketSubprovider`,
  together with the error constructors of src/src/types/errors.ts).

  The TypeScript code is embedded shallowly: every stateful method becomes an
  explicit state-passing Lean function over a record mirroring the class
  fields, every event handler becomes a step function, and JavaScript
  exceptions become `Except` / `Option` results.  `JSON.parse` is modelled at
  its observable boundary: an inbound wire payload is either `malformed`
  (the parse throws) or carries the parsed value.
-/

namespace IntentTransport

/-- Embedding of `IntentProviderError` from src/src/types/errors.ts: a message
plus a string error code (the optional `data` payload is never supplied by the
transport code under study, so it is omitted). -/
structure IntentProviderError where
  message : String
  code : String
deriving DecidableEq, Repr

/-- `createNetworkError` from src/src/types/errors.ts (code `NETWORK_ERROR`). -/
def createNetworkError (message : String) : IntentProviderError :=
  { message := message, code := "NETWORK_ERROR" }

/-- `createInvalidResponseError` from src/src/types/errors.ts
(code `INVALID_RESPONSE`). -/
def createInvalidResponseError (message : String) : IntentProviderError :=
  { message := message, code := "INVALID_RESPONSE" }

/-- A JSON value, as produced by `JSON.parse`. -/
inductive Json where
  | null
  | bool (b : Bool)
  | num (n : Int)
  | str (s : String)
  | arr (xs : List Json)
  | obj (kvs : List (String × Json))
deriving Repr

/-- JavaScript truthiness of a JSON value: `null`, `false`, `0` and the empty
string are falsy, every array and object is truthy.  This is the test applied
by `if (response.error)` and `else if (response.result)` in
`WebSocketSubprovider.post`. -/
def Json.truthy : Json → Bool
  | .null => false
  | .bool b => b
  | .num n => n != 0
  | .str s => s != ""
  | .arr _ => true
  | .obj _ => true

/-- The `error` member of a `JsonRpcResponse` (src/src/types/jsonrpc.ts). -/
structure RpcError where
  code : Int
  message : String
deriving Repr

/-- A parsed `JsonRpcResponse` (src/src/types/jsonrpc.ts): identifier plus
optional `result` and optional `error` members.  `none` models an absent
member. -/
structure RpcResponse where
  id : Int
  error : Option RpcError
  result : Option Json
deriving Repr

/-- An inbound frame on the shared connection as seen by a message handler:
either `JSON.parse` of the event data throws (`malformed`) or it yields a
response object (`parsed`). -/
inductive WireFrame where
  | malformed (raw : String)
  | parsed (resp : RpcResponse)
deriving Repr

/-- The settlement state of a JavaScript promise. -/
inductive PromiseState (α ε : Type) where
  | pending
  | resolved (a : α)
  | rejected (e : ε)
deriving Repr

/-- Settling an already-settled promise is a no-op: only a pending promise
takes the offered outcome. -/
def PromiseState.settle {α ε : Type} (p : PromiseState α ε) (o : PromiseState α ε) :
    PromiseState α ε :=
  match p with
  | .pending => o
  | q => q

/-- The per-call state of one `WebSocketSubprovider.post` invocation: the
`messageId` captured by its `messageHandler` closure, whether that handler is
currently attached to the shared socket (`this.ws?.addEventListener` attaches
it only when `ws` is non-null, and the handler removes itself on an
identifier match), and the settlement state of the returned promise. -/
structure PostCall where
  messageId : Int
  listenerAttached : Bool
  promise : PromiseState Json IntentProviderError
deriving Repr

/-- Outcome chosen by `post`'s `messageHandler` for a parsed response whose
`id` matches: a truthy `error` rejects with the server-supplied message, else
a truthy `result` resolves with it, else the promise is rejected with
`Invalid response format`.  (An `error` member, when present, is an object
and hence truthy, so the truthiness test on it coincides with presence.) -/
def matchOutcome (r : RpcResponse) : PromiseState Json IntentProviderError :=
  match r.error with
  | some e => .rejected (createInvalidResponseError e.message)
  | none =>
    match r.result with
    | some v =>
      if v.truthy then .resolved v
      else .rejected (createInvalidResponseError "Invalid response format")
    | none => .rejected (createInvalidResponseError "Invalid response format")

/-- One invocation of `post`'s `messageHandler` on an inbound frame
(HttpSubprovider.ts lines 307-323).  If the handler is not attached nothing
happens.  A malformed frame lands in the `catch` block, which rejects the
promise (and leaves the handler attached).  A parsed frame with matching `id`
first detaches the handler (`removeEventListener`) and then settles the
promise per `matchOutcome`; any other parsed frame is ignored. -/
def postStep (c : PostCall) (f : WireFrame) : PostCall :=
  if c.listenerAttached then
    match f with
    | .malformed _ =>
      let rej : PromiseState Json IntentProviderError :=
        .rejected (createInvalidResponseError "Failed to parse WebSocket message")
      { c with promise := c.promise.settle rej }
    | .parsed r =>
      if r.id = c.messageId then
        { c with listenerAttached := false,
                 promise := c.promise.settle (matchOutcome r) }
      else c
  else c

/-- `post`'s identifier allocation: `const messageId = Date.now()` — the call
identifier is exactly the millisecond clock reading at call time. -/
def postMessageId (now : Int) : Int := now

/-- The state of a `post` call right after it ran while the shared socket
existed (`this.ws` non-null): handler attached, promise pending. -/
def postCallInit (now : Int) : PostCall :=
  { messageId := postMessageId now, listenerAttached := true, promise := .pending }

/-- Processing a sequence of inbound frames through a `post` call issued while
the socket existed. -/
def postRun (now : Int) (frames : List WireFrame) : PostCall :=
  frames.foldl postStep (postCallInit now)

/-- A frame that settles the promise of a `post` call with identifier `mid`:
every malformed frame (the `catch` rejects unconditionally) and every parsed
response whose `id` matches. -/
def settlingFrame (mid : Int) : WireFrame → Bool
  | .malformed _ => true
  | .parsed r => r.id == mid

/-- The settlement produced by a settling frame. -/
def frameOutcome (f : WireFrame) : PromiseState Json IntentProviderError :=
  match f with
  | .malformed _ =>
    .rejected (createInvalidResponseError "Failed to parse WebSocket message")
  | .parsed r => matchOutcome r

/-- An inbound frame on a stream session's dedicated socket
(`WebSocketSubprovider.stream` parses `event.data` directly as the stream's
item type): either the parse throws (`malformed`) or it yields a JSON value
(`decoded`). -/
inductive StreamFrame where
  | malformed (raw : String)
  | decoded (j : Json)
deriving Repr

/-- State of the generator body of `WebSocketSubprovider.stream`
(HttpSubprovider.ts lines 342-399): the internal `messageQueue` buffer, the
single-slot `resolveNext` waiter (`waiting = true` iff `resolveNext` is
non-null, i.e. the consumer is currently awaiting the next item), and the
ghost trace `delivered` of items handed to the consumer, in order. -/
structure StreamState where
  buffer : List Json
  waiting : Bool
  delivered : List Json
deriving Repr

/-- Stream state right after the socket is set up: empty buffer, no waiter. -/
def streamInit : StreamState :=
  { buffer := [], waiting := false, delivered := [] }

/-- One invocation of `stream`'s `messageHandler` (lines 361-373).  A decoded
frame is handed directly to the waiting consumer if one is awaiting
(`resolveNext(response); resolveNext = null`), otherwise appended to the
buffer (`messageQueue.push(response)`).  A malformed frame lands in the
`catch` block, which throws `createInvalidResponseError` back out of the
event handler — modelled as an `Except.error` escaping the handler with the
session state untouched. -/
def streamMessageHandler (s : StreamState) (f : StreamFrame) :
    Except IntentProviderError StreamState :=
  match f with
  | .malformed _ =>
    .error (createInvalidResponseError "Failed to parse WebSocket message")
  | .decoded j =>
    if s.waiting then
      .ok { s with waiting := false, delivered := s.delivered ++ [j] }
    else
      .ok { s with buffer := s.buffer ++ [j] }

/-- An event observable by a stream session: the arrival of an inbound frame,
or a pull by the consumer (one iteration of the `while (true)` loop). -/
inductive StreamEv where
  | frame (f : StreamFrame)
  | pull
deriving Repr

/-- One step of the stream session.  On a frame arrival, the message handler
runs; if it throws, the exception escapes to the event loop and the session
state is unchanged.  On a pull, the loop yields `messageQueue.shift()` when
the buffer is non-empty and otherwise parks the consumer in the `resolveNext`
slot; a pull while the consumer is already parked cannot occur for a
sequential consumer and is a no-op. -/
def streamStep (s : StreamState) : StreamEv → StreamState
  | .frame f =>
    match streamMessageHandler s f with
    | .ok s' => s'
    | .error _ => s
  | .pull =>
    if s.waiting then s
    else
      match s.buffer with
      | t :: rest => { s with buffer := rest, delivered := s.delivered ++ [t] }
      | [] => { s with waiting := true }

/-- Running a stream session from a given state over a sequence of events. -/
def streamRunFrom (s : StreamState) (evs : List StreamEv) : StreamState :=
  evs.foldl streamStep s

/-- Running a stream session from its initial state. -/
def streamRun (evs : List StreamEv) : StreamState :=
  streamRunFrom streamInit evs

/-- The successfully decoded frames among a sequence of events, in arrival
order. -/
def decodedArrivals (evs : List StreamEv) : List Json :=
  evs.filterMap fun
    | .frame (.decoded j) => some j
    | _ => none

/-- Embedding of the `ws.onmessage` handler installed by
`WebSocketSubprovider.connect` (lines 193-202) for the shared connection:
when an `onMessage` callback is configured, a parsed frame is passed to it
(`.ok (some j)`), while a malformed frame lands in the `catch` block that
throws `createInvalidResponseError` back out of the event handler, modelled
as an `Except.error` escaping. -/
def connectOnMessage (hasOnMessage : Bool) (f : StreamFrame) :
    Except IntentProviderError (Option Json) :=
  if hasOnMessage then
    match f with
    | .decoded j => .ok (some j)
    | .malformed _ =>
      .error (createInvalidResponseError "Failed to parse WebSocket message")
  else .ok none

/-- The ways the iteration of a stream consumer can end: the consumer cancels
(breaks out of iteration), an error is raised into the consumer, or the
connection fails before opening (its rejection is raised to the first pull). -/
inductive ExitKind where
  | cancelled
  | errorRaised
  | connectionFailed
deriving Repr

/-- A stream session together with its dedicated socket's resources: whether
`messageHandler` is still attached and whether `ws.close()` has been called. -/
structure SessionState where
  st : StreamState
  listenerAttached : Bool
  socketClosed : Bool
deriving Repr

/-- The `finally` block of `stream` (lines 394-398): remove the frame
listener and close the dedicated socket. -/
def streamCleanup (s : SessionState) : SessionState :=
  { s with listenerAttached := false, socketClosed := true }

/-- End of iteration: because the generator's `try` body is exited by every
exit kind — `return()` on consumer cancellation, `throw()`/a raised error, or
the pre-open rejection — the `finally` block runs in every case. -/
def endIteration : ExitKind → SessionState → SessionState :=
  fun _ s => streamCleanup s

/-- Arrival of a frame on the session's dedicated socket: the handler runs
only while it is attached; after `removeEventListener` the frame is not
processed at all. -/
def sessionFrame (s : SessionState) (f : StreamFrame) : SessionState :=
  if s.listenerAttached then { s with st := streamStep s.st (.frame f) }
  else s

/-- A sequence of frame arrivals on the session's socket. -/
def sessionFrames (s : SessionState) (fs : List StreamFrame) : SessionState :=
  fs.foldl sessionFrame s

/-- The `readyState` of a browser `WebSocket` object. -/
inductive ReadyState where
  | CONNECTING
  | OPEN
  | CLOSING
  | CLOSED
deriving DecidableEq, Repr

/-- A socket object, reduced to the one field the subprovider inspects. -/
structure Socket where
  readyState : ReadyState
deriving DecidableEq, Repr

/-- The mutable fields of a `WebSocketSubprovider` instance
(HttpSubprovider.ts lines 150-161), over an arbitrary message payload type
`Msg`, plus two ghost traces: `attempted` records every invocation of
`socket.send` in order, and `transmitted` records the invocations that did
not throw. -/
structure WSState (Msg : Type) where
  ws : Option Socket
  messageQueue : List Msg
  isConnecting : Bool
  reconnectAttempts : Nat
  attempted : List Msg
  transmitted : List Msg
deriving Repr

/-- `maxReconnectAttempts = 5` (line 159). -/
def maxReconnectAttempts : Nat := 5

/-- `reconnectDelay = 1000` milliseconds, the base backoff delay (line 161). -/
def reconnectDelay : Nat := 1000

/-- A freshly constructed subprovider: no socket, empty queue, not
connecting, zero reconnect attempts. -/
def wsInit {Msg : Type} : WSState Msg :=
  { ws := none, messageQueue := [], isConnecting := false,
    reconnectAttempts := 0, attempted := [], transmitted := [] }

/-- The test `this.ws?.readyState === WebSocket.OPEN`. -/
def wsOpen {Msg : Type} (s : WSState Msg) : Bool :=
  match s.ws with
  | some sock => sock.readyState = ReadyState.OPEN
  | none => false

/-- `WebSocketSubprovider.connect` (lines 177-215), up to the installation of
event handlers (those are modelled as the separate step functions below):
a no-op when the socket is already open or a connection attempt is in
progress; otherwise it sets `isConnecting` and replaces `this.ws` with a
fresh socket in the `CONNECTING` state.  Note that it does not touch
`reconnectAttempts`. -/
def connect {Msg : Type} (s : WSState Msg) : WSState Msg :=
  if wsOpen s || s.isConnecting then s
  else { s with isConnecting := true, ws := some { readyState := .CONNECTING } }

/-- The loop body of `flushMessageQueue` (lines 241-250) acting on the queue:
each message is shifted off the head and handed to `socket.send`; a send that
throws is re-raised as a `NetworkError`, which aborts the loop at that point.
Returns the remaining queue, the messages handed to `socket.send` (in
order), those transmitted successfully, and the escaping error if any.
`fail m = true` models `socket.send` throwing on `m`. -/
def flushLoop {Msg : Type} (fail : Msg → Bool) :
    List Msg → List Msg × List Msg × List Msg × Option IntentProviderError
  | [] => ([], [], [], none)
  | m :: rest =>
    if fail m then
      (rest, [m], [], some (createNetworkError "Failed to send queued message"))
    else
      let (q, att, tx, e) := flushLoop fail rest
      (q, m :: att, m :: tx, e)

/-- `WebSocketSubprovider.flushMessageQueue` (lines 236-251): returns
unchanged unless a socket exists and is `OPEN`, otherwise drains the queue
head-to-tail via `flushLoop`, together with the error escaping the flush, if
any. -/
def flushMessageQueue {Msg : Type} (fail : Msg → Bool) (s : WSState Msg) :
    WSState Msg × Option IntentProviderError :=
  if wsOpen s then
    let (q, att, tx, e) := flushLoop fail s.messageQueue
    ({ s with messageQueue := q, attempted := s.attempted ++ att,
              transmitted := s.transmitted ++ tx }, e)
  else (s, none)

/-- The `onopen` handler installed by `connect` (lines 187-191), preceded by
the socket's own transition to `OPEN`: clear `isConnecting`, reset
`reconnectAttempts` to zero, and flush the message queue. -/
def onOpen {Msg : Type} (fail : Msg → Bool) (s : WSState Msg) :
    WSState Msg × Option IntentProviderError :=
  let s1 : WSState Msg :=
    { s with ws := s.ws.map fun _ => { readyState := ReadyState.OPEN },
             isConnecting := false, reconnectAttempts := 0 }
  flushMessageQueue fail s1

/-- `WebSocketSubprovider.send` (lines 258-269): if the socket is open the
message is handed to `socket.send` immediately (a throw is re-raised as a
`NetworkError`); otherwise the message is pushed onto the tail of
`messageQueue` and `connect()` is triggered. -/
def send {Msg : Type} (fail : Msg → Bool) (m : Msg) (s : WSState Msg) :
    WSState Msg × Option IntentProviderError :=
  if wsOpen s then
    if fail m then
      ({ s with attempted := s.attempted ++ [m] },
       some (createNetworkError "Failed to send WebSocket message"))
    else
      ({ s with attempted := s.attempted ++ [m],
                transmitted := s.transmitted ++ [m] }, none)
  else
    (connect { s with messageQueue := s.messageQueue ++ [m] }, none)

/-- A sequence of `send` calls, in order. -/
def sendAll {Msg : Type} (fail : Msg → Bool) (ms : List Msg) (s : WSState Msg) :
    WSState Msg :=
  ms.foldl (fun s m => (send fail m s).1) s

/-- The `NetworkError` thrown once the reconnect budget is exhausted. -/
def connectionExhaustedError : IntentProviderError :=
  createNetworkError
    ("WebSocket connection failed after " ++ toString maxReconnectAttempts ++ " attempts")

/-- `WebSocketSubprovider.handleDisconnect` (lines 221-231): clear
`isConnecting` and `this.ws`; while `reconnectAttempts < maxReconnectAttempts`
increment the counter and schedule `connect()` after
`reconnectDelay * reconnectAttempts` milliseconds (returned as `.ok delay`);
otherwise throw the exhaustion `NetworkError` (returned as `.error`), so no
further automatic attempt is scheduled. -/
def handleDisconnect {Msg : Type} (s : WSState Msg) :
    WSState Msg × Except IntentProviderError Nat :=
  let s1 : WSState Msg := { s with isConnecting := false, ws := none }
  if s1.reconnectAttempts < maxReconnectAttempts then
    let n := s1.reconnectAttempts + 1
    ({ s1 with reconnectAttempts := n }, .ok (reconnectDelay * n))
  else
    (s1, .error connectionExhaustedError)

/-- `WebSocketSubprovider.disconnect` (lines 274-281): close and drop the
socket, clear the queue, reset the reconnect counter. -/
def disconnect {Msg : Type} (s : WSState Msg) : WSState Msg :=
  { s with ws := none, messageQueue := [], reconnectAttempts := 0 }

/-- One failed connection cycle: the scheduled (or explicit) `connect()` runs
and the attempt fails, firing `handleDisconnect` via the `onclose`/`onerror`
handler.  The second component is what `handleDisconnect` produced: the delay
of the next scheduled automatic attempt, or the exhaustion error. -/
def failureCycle {Msg : Type} (s : WSState Msg) :
    WSState Msg × Except IntentProviderError Nat :=
  handleDisconnect (connect s)

/-- The subprovider state after `n` consecutive failed connection cycles. -/
def cycleState {Msg : Type} (s : WSState Msg) : Nat → WSState Msg
  | 0 => s
  | n + 1 => (failureCycle (cycleState s n)).1

/-- The outcome of the `n`-th consecutive failed connection cycle
(1-indexed): the delay scheduled before the next automatic reconnect
attempt, or the exhaustion error. -/
def cycleOutcome {Msg : Type} (s : WSState Msg) (n : Nat) :
    Except IntentProviderError Nat :=
  (failureCycle (cycleState s (n - 1))).2

/-- The `IntentRequest` payload shape (HttpSubprovider.ts lines 137-144). -/
structure IntentRequest where
  id : String
  params : List (String × Json)
  cusRateLimit : Int
deriving Repr

/-- The JSON-RPC request envelope built by `WebSocketSubprovider.post`
(lines 297-305): `{jsonrpc: "2.0", id: messageId, method: "POST",
params: [{endpoint, data}]}`. -/
structure JsonRpcRequest where
  jsonrpc : String
  id : Int
  method : String
  endpoint : String
  data : IntentRequest
deriving Repr

/-- The envelope `post` constructs for a given `Date.now()` reading. -/
def mkPostEnvelope (now : Int) (endpoint : String) (d : IntentRequest) :
    JsonRpcRequest :=
  { jsonrpc := "2.0", id := postMessageId now, method := "POST",
    endpoint := endpoint, data := d }

/-- `WebSocketSubprovider.post` (lines 294-328) acting on the subprovider
state: allocate `messageId = Date.now()`, attach `messageHandler` via
`this.ws?.addEventListener` — which attaches nothing when `ws` is null — and
hand the envelope to `send`.  Returns the updated subprovider state and the
call's `PostCall` record (promise pending; `listenerAttached` records whether
the handler was actually attached). -/
def postIssue (fail : JsonRpcRequest → Bool) (now : Int) (endpoint : String)
    (d : IntentRequest) (s : WSState JsonRpcRequest) :
    WSState JsonRpcRequest × PostCall :=
  let env := mkPostEnvelope now endpoint d
  let p : PostCall :=
    { messageId := postMessageId now, listenerAttached := s.ws.isSome,
      promise := .pending }
  ((send fail env s).1, p)

/-- A concrete subprovider state whose reconnect budget is exhausted: the
socket was dropped by `handleDisconnect` and `reconnectAttempts` has reached
the maximum. -/
def exhaustedState : WSState Nat :=
  { ws := none, messageQueue := [], isConnecting := false,
    reconnectAttempts := maxReconnectAttempts, attempted := [], transmitted := [] }

@[simp]
lemma decodedArrivals_nil : decodedArrivals [] = [] := rfl

@[simp]
lemma decodedArrivals_cons_pull (evs : List StreamEv) :
    decodedArrivals (.pull :: evs) = decodedArrivals evs := rfl

@[simp]
lemma decodedArrivals_cons_malformed (raw : String) (evs : List StreamEv) :
    decodedArrivals (.frame (.malformed raw) :: evs) = decodedArrivals evs := rfl

@[simp]
lemma decodedArrivals_cons_decoded (j : Json) (evs : List StreamEv) :
    decodedArrivals (.frame (.decoded j) :: evs) = j :: decodedArrivals evs := rfl

@[simp]
lemma streamRunFrom_nil (s : StreamState) : streamRunFrom s [] = s := rfl

@[simp]
lemma streamRunFrom_cons (s : StreamState) (ev : StreamEv) (evs : List StreamEv) :
    streamRunFrom s (ev :: evs) = streamRunFrom (streamStep s ev) evs := rfl

lemma streamStep_spec (s : StreamState) (ev : StreamEv)
    (h : s.waiting = true → s.buffer = []) :
    ((streamStep s ev).waiting = true → (streamStep s ev).buffer = []) ∧
    (streamStep s ev).delivered ++ (streamStep s ev).buffer =
      s.delivered ++ s.buffer ++ decodedArrivals [ev] := by
  cases ev with
  | frame f =>
    cases f with
    | malformed raw =>
      exact ⟨by simpa [streamStep, streamMessageHandler] using h,
             by simp [streamStep, streamMessageHandler]⟩
    | decoded j =>
      by_cases hw : s.waiting
      · have hb := h hw
        simp [streamStep, streamMessageHandler, hw, hb]
      · simp [streamStep, streamMessageHandler, hw, h]
  | pull =>
    by_cases hw : s.waiting
    · have hb := h hw
      simp [streamStep, hw, hb]
    · cases hbuf : s.buffer with
      | nil => simp [streamStep, hw, hbuf]
      | cons t rest => simp [streamStep, hw, hbuf]

lemma streamRunFrom_spec (evs : List StreamEv) :
    ∀ s : StreamState, (s.waiting = true → s.buffer = []) →
      ((streamRunFrom s evs).waiting = true → (streamRunFrom s evs).buffer = []) ∧
      (streamRunFrom s evs).delivered ++ (streamRunFrom s evs).buffer =
        s.delivered ++ s.buffer ++ decodedArrivals evs := by
  induction evs with
  | nil => intro s h; exact ⟨h, by simp⟩
  | cons ev evs ih =>
    intro s h
    have hstep := streamStep_spec s ev h
    have hrec := ih (streamStep s ev) hstep.1
    refine ⟨by simpa using hrec.1, ?_⟩
    rw [streamRunFrom_cons, hrec.2, hstep.2]
    cases ev with
    | frame f => cases f <;> simp
    | pull => simp

lemma streamDrain (b : List Json) :
    ∀ s : StreamState, s.buffer = b → (s.waiting = true → s.buffer = []) →
      (streamRunFrom s (List.replicate b.length StreamEv.pull)).delivered =
        s.delivered ++ b := by
  induction b with
  | nil => intro s hb _; simp
  | cons t rest ih =>
    intro s hb h
    have hw : s.waiting = false := by
      cases hsw : s.waiting
      · rfl
      · rw [h hsw] at hb
        exact absurd hb (by simp)
    have hstep : streamStep s .pull =
        { s with buffer := rest, delivered := s.delivered ++ [t] } := by
      simp [streamStep, hw, hb]
    rw [List.length_cons, List.replicate_succ, streamRunFrom_cons, hstep]
    rw [ih { s with buffer := rest, delivered := s.delivered ++ [t] } rfl (by simp [hw])]
    simp

/-- C1: over every interleaving of frame arrivals and consumer pulls, a
stream session's delivered items followed by its still-buffered items are
exactly the successfully decoded frames in arrival order (no frame dropped,
duplicated or reordered); and after pulling the remaining buffer dry the
consumer has received every decoded frame exactly once, in arrival order. -/
theorem stream_delivers_exactly_once_in_order (evs : List StreamEv) :
    (streamRun evs).delivered ++ (streamRun evs).buffer = decodedArrivals evs ∧
    (streamRunFrom (streamRun evs)
        (List.replicate (streamRun evs).buffer.length StreamEv.pull)).delivered =
      decodedArrivals evs := by
  have h := streamRunFrom_spec evs streamInit (by simp [streamInit])
  have h1 : (streamRun evs).delivered ++ (streamRun evs).buffer = decodedArrivals evs := by
    have := h.2
    simpa [streamRun, streamInit] using this
  refine ⟨h1, ?_⟩
  have h2 := streamDrain (streamRun evs).buffer (streamRun evs) rfl h.1
  rw [h2, h1]

/-- C9: however the iteration of a stream session ends — consumer
cancellation, an error raised into the consumer, or the connection failing —
the `finally` block removes the frame listener and closes the dedicated
socket, and afterwards no arriving frame is processed or delivered. -/
theorem stream_cleanup_on_every_exit (k : ExitKind) (s : SessionState)
    (fs : List StreamFrame) :
    (endIteration k s).listenerAttached = false ∧
    (endIteration k s).socketClosed = true ∧
    sessionFrames (endIteration k s) fs = endIteration k s := by
  refine ⟨rfl, rfl, ?_⟩
  have key : ∀ (fs : List StreamFrame) (t : SessionState),
      t.listenerAttached = false → sessionFrames t fs = t := by
    intro fs
    induction fs with
    | nil => intro t _; rfl
    | cons f fs ih =>
      intro t ht
      have hf : sessionFrame t f = t := by simp [sessionFrame, ht]
      show sessionFrames (sessionFrame t f) fs = t
      rw [hf]
      exact ih t ht
  exact key fs _ rfl

/-- C5 (divergence witness): a frame whose payload fails to decode as JSON
is not converted into a failure delivered to an awaiting caller — on both the
shared connection's `onmessage` handler and a stream session's
`messageHandler`, the `catch` block throws a fresh `InvalidResponse` error
back out of the message-event handler, where no catcher exists. -/
theorem parse_failure_escapes_handlers :
    connectOnMessage true (StreamFrame.malformed "not json") =
      Except.error (createInvalidResponseError "Failed to parse WebSocket message") ∧
    streamMessageHandler streamInit (StreamFrame.malformed "not json") =
      Except.error (createInvalidResponseError "Failed to parse WebSocket message") :=
  ⟨rfl, rfl⟩

lemma postStep_unattached (c : PostCall) (f : WireFrame)
    (h : c.listenerAttached = false) : postStep c f = c := by
  simp [postStep, h]

lemma postFold_unattached (frames : List WireFrame) :
    ∀ c : PostCall, c.listenerAttached = false → frames.foldl postStep c = c := by
  induction frames with
  | nil => intro c _; rfl
  | cons f frames ih =>
    intro c h
    rw [List.foldl_cons, postStep_unattached c f h]
    exact ih c h

lemma matchOutcome_ne_pending (r : RpcResponse) : matchOutcome r ≠ .pending := by
  unfold matchOutcome
  cases r.error with
  | some e => simp
  | none =>
    cases r.result with
    | some v =>
      by_cases hv : v.truthy <;> simp [hv]
    | none => simp

lemma postStep_settled (c : PostCall) (f : WireFrame)
    (h : c.promise ≠ .pending) : (postStep c f).promise = c.promise := by
  have hs : ∀ o : PromiseState Json IntentProviderError, c.promise.settle o = c.promise := by
    intro o
    unfold PromiseState.settle
    cases hp : c.promise with
    | pending => exact absurd hp h
    | resolved a => rfl
    | rejected e => rfl
  unfold postStep
  by_cases hA : c.listenerAttached
  · cases f with
    | malformed raw => simp [hA, hs]
    | parsed r =>
      by_cases hid : r.id = c.messageId <;> simp [hA, hid, hs]
  · simp [hA]

lemma postFold_settled (frames : List WireFrame) :
    ∀ c : PostCall, c.promise ≠ .pending →
      (frames.foldl postStep c).promise = c.promise := by
  induction frames with
  | nil => intro c _; rfl
  | cons f frames ih =>
    intro c h
    rw [List.foldl_cons]
    have hp := postStep_settled c f h
    rw [ih (postStep c f) (by rw [hp]; exact h), hp]

lemma postFold_characterization (frames : List WireFrame) :
    ∀ c : PostCall, c.listenerAttached = true → c.promise = .pending →
      (frames.foldl postStep c).promise =
        (match frames.find? (settlingFrame c.messageId) with
         | none => PromiseState.pending
         | some f => frameOutcome f) := by
  induction frames with
  | nil => intro c _ hP; simpa using hP
  | cons f frames ih =>
    intro c hA hP
    cases f with
    | malformed raw =>
      have hstep : postStep c (.malformed raw) =
          { c with promise :=
              .rejected (createInvalidResponseError "Failed to parse WebSocket message") } := by
        simp [postStep, hA, hP, PromiseState.settle]
      rw [List.foldl_cons, hstep,
          postFold_settled frames _ (by simp),
          List.find?_cons_of_pos _ (by simp [settlingFrame])]
      rfl
    | parsed r =>
      by_cases hid : r.id = c.messageId
      · have hstep : postStep c (.parsed r) =
            { c with listenerAttached := false, promise := matchOutcome r } := by
          simp [postStep, hA, hid, hP, PromiseState.settle]
        rw [List.foldl_cons, hstep, postFold_unattached frames _ rfl,
            List.find?_cons_of_pos _ (by simp [settlingFrame, hid])]
        rfl
      · have hstep : postStep c (.parsed r) = c := by simp [postStep, hA, hid]
        rw [List.foldl_cons, hstep, ih c hA hP,
            List.find?_cons_of_neg _ (by simp [settlingFrame, hid])]

/-- C2 (counterexample): the future returned by `post` does not settle only
on a response frame whose identifier matches the call's — a frame that is
not a response frame at all (its payload fails to parse) settles it: the
handler's `catch` rejects the promise with the parse failure. -/
theorem post_settles_on_unparsable_frame :
    (postRun 42 [WireFrame.malformed "not json"]).promise =
      PromiseState.rejected (createInvalidResponseError "Failed to parse WebSocket message") ∧
    ∀ r : RpcResponse, WireFrame.malformed "not json" ≠ WireFrame.parsed r :=
  ⟨rfl, fun _ h => WireFrame.noConfusion h⟩

/-- C2 (amended): the future returned by `post` settles on the first frame
that is either malformed (rejected with the parse failure) or a decoded
response whose identifier equals the call's own; decoded responses with
other identifiers never settle it, regardless of arrival order.  For the
settling matched response: a frame carrying an error object rejects with the
server-supplied message, a frame carrying a truthy result resolves with that
result, and a frame with a missing (or falsy) result rejects with the
`InvalidResponse` failure `Invalid response format`.  If no such frame ever
arrives the future stays pending. -/
theorem post_settlement_first_matching_or_malformed (now : Int)
    (frames : List WireFrame) :
    (postRun now frames).promise =
      (match frames.find? (settlingFrame (postMessageId now)) with
       | none => PromiseState.pending
       | some f => frameOutcome f) :=
  postFold_characterization frames (postCallInit now) rfl rfl

/-- C8 (counterexample): identifier allocation is `Date.now()`, so two calls
issued within the same millisecond receive the same identifier, and a single
response frame carrying that identifier matches — and resolves — both
pending requests, not at most one. -/
theorem timestamp_ids_collide_same_millisecond :
    postMessageId 1718000000000 = postMessageId 1718000000000 ∧
    (postStep (postCallInit 1718000000000)
        (WireFrame.parsed ⟨1718000000000, none, some (Json.num 7)⟩)).promise =
      PromiseState.resolved (Json.num 7) ∧
    (postStep (postCallInit 1718000000000)
        (WireFrame.parsed ⟨1718000000000, none, some (Json.num 7)⟩)).promise =
      PromiseState.resolved (Json.num 7) :=
  ⟨rfl, rfl, rfl⟩

/-- C8 (amended): identifiers equal the millisecond clock reading at call
time, so calls issued at distinct milliseconds receive distinct identifiers,
and a response frame matching one such call's identifier leaves the other
call completely untouched; only calls issued within the same millisecond
collide. -/
theorem timestamp_ids_distinct_across_milliseconds (t1 t2 : Int) (h : t1 ≠ t2)
    (r : RpcResponse) (hid : r.id = postMessageId t1) :
    postMessageId t1 ≠ postMessageId t2 ∧
    postStep (postCallInit t2) (WireFrame.parsed r) = postCallInit t2 := by
  refine ⟨by simpa [postMessageId] using h, ?_⟩
  have hne : ¬ (r.id = postMessageId t2) := by
    simp only [postMessageId] at hid ⊢
    rw [hid]
    exact h
  simp [postStep, postCallInit, hne]

/-- Witness for the amended C8 theorem at concrete distinct milliseconds. -/
theorem timestamp_ids_distinct_across_milliseconds_witness :
    postMessageId 1 ≠ postMessageId 2 ∧
    postStep (postCallInit 2) (WireFrame.parsed ⟨1, none, some (Json.num 3)⟩) =
      postCallInit 2 :=
  timestamp_ids_distinct_across_milliseconds 1 2 (by decide)
    ⟨1, none, some (Json.num 3)⟩ rfl

lemma connect_of_isConnecting {Msg : Type} (s : WSState Msg)
    (h : s.isConnecting = true) : connect s = s := by
  simp [connect, h]

lemma connect_reconnectAttempts {Msg : Type} (s : WSState Msg) :
    (connect s).reconnectAttempts = s.reconnectAttempts := by
  unfold connect
  split <;> rfl

lemma connect_messageQueue {Msg : Type} (s : WSState Msg) :
    (connect s).messageQueue = s.messageQueue := by
  unfold connect
  split <;> rfl

@[simp]
lemma sendAll_nil {Msg : Type} (fail : Msg → Bool) (s : WSState Msg) :
    sendAll fail [] s = s := rfl

@[simp]
lemma sendAll_cons {Msg : Type} (fail : Msg → Bool) (m : Msg) (ms : List Msg)
    (s : WSState Msg) :
    sendAll fail (m :: ms) s = sendAll fail ms (send fail m s).1 := rfl

lemma send_queues {Msg : Type} (fail : Msg → Bool) (m : Msg) (s : WSState Msg)
    (hO : wsOpen s = false) (hC : s.isConnecting = true) :
    (send fail m s).1 = { s with messageQueue := s.messageQueue ++ [m] } := by
  simp [send, hO, connect, hC]

lemma sendAll_queues {Msg : Type} (fail : Msg → Bool) (ms : List Msg) :
    ∀ s : WSState Msg, s.isConnecting = true → wsOpen s = false →
      sendAll fail ms s = { s with messageQueue := s.messageQueue ++ ms } := by
  induction ms with
  | nil => intro s _ _; simp
  | cons m ms ih =>
    intro s hC hO
    rw [sendAll_cons, send_queues fail m s hO hC]
    rw [ih { s with messageQueue := s.messageQueue ++ [m] } hC hO]
    simp

lemma sendAll_transmits {Msg : Type} (ms : List Msg) :
    ∀ s : WSState Msg, wsOpen s = true →
      sendAll (fun _ => false) ms s =
        { s with attempted := s.attempted ++ ms, transmitted := s.transmitted ++ ms } := by
  induction ms with
  | nil => intro s _; simp
  | cons m ms ih =>
    intro s hO
    have hsend : (send (fun _ => false) m s).1 =
        { s with attempted := s.attempted ++ [m], transmitted := s.transmitted ++ [m] } := by
      simp [send, hO]
    rw [sendAll_cons, hsend]
    rw [ih { s with attempted := s.attempted ++ [m], transmitted := s.transmitted ++ [m] } hO]
    simp

lemma flushLoop_noFail {Msg : Type} (q : List Msg) :
    flushLoop (fun _ => false) q = ([], q, q, none) := by
  induction q with
  | nil => rfl
  | cons m rest ih => simp [flushLoop, ih]

/-- C3: every message sent while the shared connection is not open is
appended to the tail of the outbound queue (in call order, nothing
transmitted yet); when the open event fires, the queue is drained
head-to-tail, so the queued messages reach the socket in exactly their
enqueue order; and messages sent after the open follow them, giving the
overall FIFO transmission order `pre ++ post`. -/
theorem send_queue_fifo_order {Msg : Type} (pre post : List Msg) :
    (sendAll (fun _ => false) pre (connect wsInit)).messageQueue = pre ∧
    (sendAll (fun _ => false) pre (connect wsInit)).transmitted = [] ∧
    ((onOpen (fun _ => false) (sendAll (fun _ => false) pre (connect wsInit))).1).messageQueue
      = [] ∧
    ((onOpen (fun _ => false) (sendAll (fun _ => false) pre (connect wsInit))).1).transmitted
      = pre ∧
    (sendAll (fun _ => false) post
        ((onOpen (fun _ => false) (sendAll (fun _ => false) pre (connect wsInit))).1)).transmitted
      = pre ++ post := by
  have h1 : sendAll (fun _ => false) pre (connect (wsInit : WSState Msg)) =
      { wsInit with isConnecting := true,
                    ws := some { readyState := ReadyState.CONNECTING },
                    messageQueue := pre } := by
    exact sendAll_queues _ pre _ rfl rfl
  have h2 : (onOpen (fun _ => false)
        (sendAll (fun _ => false) pre (connect (wsInit : WSState Msg)))).1 =
      { ws := some { readyState := ReadyState.OPEN }, messageQueue := [],
        isConnecting := false, reconnectAttempts := 0,
        attempted := pre, transmitted := pre } := by
    rw [h1]
    simp [onOpen, flushMessageQueue, wsOpen, flushLoop_noFail, wsInit]
  refine ⟨by rw [h1], by rw [h1]; rfl, by rw [h2], by rw [h2], ?_⟩
  rw [h2]
  rw [sendAll_transmits post
    { ws := some { readyState := ReadyState.OPEN }, messageQueue := [],
      isConnecting := false, reconnectAttempts := 0,
      attempted := pre, transmitted := pre } rfl]

lemma failureCycle_outcome {Msg : Type} (s : WSState Msg) :
    (failureCycle s).2 =
      if s.reconnectAttempts < maxReconnectAttempts then
        Except.ok (reconnectDelay * (s.reconnectAttempts + 1))
      else Except.error connectionExhaustedError := by
  unfold failureCycle handleDisconnect
  by_cases hc : s.reconnectAttempts < maxReconnectAttempts <;>
    simp [connect_reconnectAttempts, hc]

lemma failureCycle_attempts {Msg : Type} (s : WSState Msg) :
    ((failureCycle s).1).reconnectAttempts =
      if s.reconnectAttempts < maxReconnectAttempts then s.reconnectAttempts + 1
      else s.reconnectAttempts := by
  unfold failureCycle handleDisconnect
  by_cases hc : s.reconnectAttempts < maxReconnectAttempts <;>
    simp [connect_reconnectAttempts, hc]

lemma cycleState_attempts {Msg : Type} (s : WSState Msg)
    (h : s.reconnectAttempts = 0) (n : Nat) :
    (cycleState s n).reconnectAttempts = min n maxReconnectAttempts := by
  induction n with
  | zero =>
    show s.reconnectAttempts = min 0 maxReconnectAttempts
    rw [h]
    simp
  | succ n ih =>
    show ((failureCycle (cycleState s n)).1).reconnectAttempts
      = min (n + 1) maxReconnectAttempts
    rw [failureCycle_attempts, ih]
    simp only [maxReconnectAttempts]
    split <;> omega

/-- C4: during a run of consecutive connection failures starting with a zero
attempt counter (as after the last successful open), the n-th automatic
reconnect attempt (1-indexed) is scheduled with delay `reconnectDelay * n`
for n up to `maxReconnectAttempts` (default 5); every failure beyond that
schedules no attempt and instead surfaces the `NETWORK_ERROR` exhaustion
failure. -/
theorem reconnect_budget_and_linear_backoff {Msg : Type} (s : WSState Msg)
    (h : s.reconnectAttempts = 0) :
    (∀ n, 1 ≤ n → n ≤ maxReconnectAttempts →
        cycleOutcome s n = Except.ok (reconnectDelay * n)) ∧
    (∀ m, maxReconnectAttempts < m →
        cycleOutcome s m = Except.error connectionExhaustedError) := by
  constructor
  · intro n h1 h5
    unfold cycleOutcome
    rw [failureCycle_outcome, cycleState_attempts s h]
    rw [if_pos (by simp only [maxReconnectAttempts] at *; omega)]
    congr 1
    simp only [maxReconnectAttempts, reconnectDelay] at *
    omega
  · intro m hm
    unfold cycleOutcome
    rw [failureCycle_outcome, cycleState_attempts s h]
    rw [if_neg (by simp only [maxReconnectAttempts] at *; omega)]

/-- Witness for C4 at a concrete state and attempt indices: the third
automatic attempt is scheduled after three times the base delay, and the
sixth consecutive failure surfaces the exhaustion error. -/
theorem reconnect_budget_and_linear_backoff_witness :
    cycleOutcome (wsInit : WSState Nat) 3 = Except.ok (reconnectDelay * 3) ∧
    cycleOutcome (wsInit : WSState Nat) 6 = Except.error connectionExhaustedError :=
  ⟨(reconnect_budget_and_linear_backoff wsInit rfl).1 3 (by decide) (by decide),
   (reconnect_budget_and_linear_backoff wsInit rfl).2 6 (by decide)⟩

/-- C6 (counterexample): after the reconnect budget is exhausted, an
explicit `connect()` does initiate a new connection attempt, but it does not
reset the attempt counter to zero — `reconnectAttempts` stays at the
maximum; only a successful open resets it. -/
theorem connect_does_not_reset_attempts :
    (connect exhaustedState).isConnecting = true ∧
    (connect exhaustedState).ws.isSome = true ∧
    (connect exhaustedState).reconnectAttempts ≠ 0 := by
  decide

/-- C6 (amended): once `reconnectAttempts` has reached the maximum, a
further disconnect surfaces the exhaustion error and schedules no automatic
attempt, leaving the counter at the maximum; a subsequent explicit
`connect()` call initiates a new connection attempt (sets `isConnecting`,
creates a fresh socket) while leaving the attempt counter unchanged; the
counter is reset to zero only when a connection attempt succeeds — by the
open event's handler. -/
theorem reconnect_exhaustion_and_reset_on_open {Msg : Type} (s : WSState Msg)
    (hA : s.reconnectAttempts = maxReconnectAttempts)
    (hW : s.ws = none) (hC : s.isConnecting = false) :
    (handleDisconnect s).2 = Except.error connectionExhaustedError ∧
    (handleDisconnect s).1.reconnectAttempts = maxReconnectAttempts ∧
    (connect s).isConnecting = true ∧
    (connect s).ws = some { readyState := ReadyState.CONNECTING } ∧
    (connect s).reconnectAttempts = s.reconnectAttempts ∧
    ((onOpen (fun _ => false) (connect s)).1).reconnectAttempts = 0 := by
  have hO : wsOpen s = false := by simp [wsOpen, hW]
  have hconn : connect s =
      { s with isConnecting := true,
               ws := some { readyState := ReadyState.CONNECTING } } := by
    simp [connect, hO, hC]
  refine ⟨?_, ?_, ?_, ?_, ?_, ?_⟩
  · simp [handleDisconnect, hA]
  · simp [handleDisconnect, hA]
  · rw [hconn]
  · rw [hconn]
  · rw [hconn]
  · rw [hconn]
    simp [onOpen, flushMessageQueue, wsOpen, flushLoop_noFail]

/-- Witness for the amended C6 theorem at the concrete exhausted state. -/
theorem reconnect_exhaustion_and_reset_on_open_witness :
    (handleDisconnect exhaustedState).2 = Except.error connectionExhaustedError ∧
    (handleDisconnect exhaustedState).1.reconnectAttempts = maxReconnectAttempts ∧
    (connect exhaustedState).isConnecting = true ∧
    (connect exhaustedState).ws = some { readyState := ReadyState.CONNECTING } ∧
    (connect exhaustedState).reconnectAttempts = exhaustedState.reconnectAttempts ∧
    ((onOpen (fun _ => false) (connect exhaustedState)).1).reconnectAttempts = 0 :=
  reconnect_exhaustion_and_reset_on_open exhaustedState rfl rfl rfl

/-- C7 (divergence witness): when the flush triggered by the open event hits
a message whose transmission fails (here the queued message `0`, with `1`
queued behind it), the loop throws a `NetworkError` and aborts: only the
failing message was handed to the socket, the later message is never
attempted and remains stranded in the queue. -/
theorem flush_aborts_on_send_failure :
    ((onOpen (fun m => m == 0)
        ({ ws := some { readyState := ReadyState.CONNECTING },
           messageQueue := [0, 1], isConnecting := true, reconnectAttempts := 0,
           attempted := [], transmitted := [] } : WSState Nat)).1).attempted = [0] ∧
    ((onOpen (fun m => m == 0)
        ({ ws := some { readyState := ReadyState.CONNECTING },
           messageQueue := [0, 1], isConnecting := true, reconnectAttempts := 0,
           attempted := [], transmitted := [] } : WSState Nat)).1).messageQueue = [1] ∧
    ((onOpen (fun m => m == 0)
        ({ ws := some { readyState := ReadyState.CONNECTING },
           messageQueue := [0, 1], isConnecting := true, reconnectAttempts := 0,
           attempted := [], transmitted := [] } : WSState Nat)).1).transmitted = [] ∧
    (onOpen (fun m => m == 0)
        ({ ws := some { readyState := ReadyState.CONNECTING },
           messageQueue := [0, 1], isConnecting := true, reconnectAttempts := 0,
           attempted := [], transmitted := [] } : WSState Nat)).2 =
      some (createNetworkError "Failed to send queued message") := by
  decide

/-- C10: a `post` issued while `this.ws` is null registers no message
handler (the optional chaining attaches nothing); the request envelope is
still queued and, once the connection created by the triggered `connect()`
opens, transmitted on the new socket; but since no handler matching the
call's identifier exists, no sequence of inbound frames ever settles the
returned promise — it stays pending forever. -/
theorem post_with_null_ws_never_settles (s : WSState JsonRpcRequest)
    (hW : s.ws = none) (hC : s.isConnecting = false)
    (now : Int) (endpoint : String) (d : IntentRequest) (frames : List WireFrame) :
    ((postIssue (fun _ => false) now endpoint d s).2).listenerAttached = false ∧
    ((postIssue (fun _ => false) now endpoint d s).1).messageQueue =
      s.messageQueue ++ [mkPostEnvelope now endpoint d] ∧
    mkPostEnvelope now endpoint d ∈
      ((onOpen (fun _ => false) ((postIssue (fun _ => false) now endpoint d s).1)).1).transmitted ∧
    (frames.foldl postStep ((postIssue (fun _ => false) now endpoint d s).2)).promise =
      PromiseState.pending := by
  have hO : wsOpen s = false := by simp [wsOpen, hW]
  have hstate : (postIssue (fun _ => false) now endpoint d s).1 =
      { s with messageQueue := s.messageQueue ++ [mkPostEnvelope now endpoint d],
               isConnecting := true,
               ws := some { readyState := ReadyState.CONNECTING } } := by
    simp [postIssue, send, hO, connect, wsOpen, hW, hC]
  have hcall : (postIssue (fun _ => false) now endpoint d s).2 =
      { messageId := postMessageId now, listenerAttached := false,
        promise := .pending } := by
    simp [postIssue, hW]
  refine ⟨by rw [hcall], by rw [hstate], ?_, ?_⟩
  · rw [hstate]
    simp [onOpen, flushMessageQueue, wsOpen, flushLoop_noFail]
  · rw [hcall]
    rw [postFold_unattached frames
      { messageId := postMessageId now, listenerAttached := false,
        promise := .pending } rfl]

/-- Witness for C10: a concrete `post` on a fresh (socketless) subprovider,
followed by the open event and by an inbound response frame whose identifier
even matches the call's — the promise still stays pending. -/
theorem post_with_null_ws_never_settles_witness :
    ((postIssue (fun _ => false) 99 "/intents"
        { id := "token-price", params := [], cusRateLimit := -1 }
        (wsInit : WSState JsonRpcRequest)).2).listenerAttached = false ∧
    ((postIssue (fun _ => false) 99 "/intents"
        { id := "token-price", params := [], cusRateLimit := -1 }
        (wsInit : WSState JsonRpcRequest)).1).messageQueue =
      wsInit.messageQueue ++
        [mkPostEnvelope 99 "/intents" { id := "token-price", params := [], cusRateLimit := -1 }] ∧
    mkPostEnvelope 99 "/intents" { id := "token-price", params := [], cusRateLimit := -1 } ∈
      ((onOpen (fun _ => false) ((postIssue (fun _ => false) 99 "/intents"
          { id := "token-price", params := [], cusRateLimit := -1 }
          (wsInit : WSState JsonRpcRequest)).1)).1).transmitted ∧
    (([WireFrame.parsed { id := 99, error := none, result := some (Json.num 1) }]).foldl
        postStep ((postIssue (fun _ => false) 99 "/intents"
          { id := "token-price", params := [], cusRateLimit := -1 }
          (wsInit : WSState JsonRpcRequest)).2)).promise = PromiseState.pending :=
  post_with_null_ws_never_settles wsInit rfl rfl 99 "/intents"
    { id := "token-price", params := [], cusRateLimit := -1 }
    [WireFrame.parsed { id := 99, error := none, result := some (Json.num 1) }]

end IntentTransport
